import Mathlib

/-!
Shallow embedding of the notification API gateway (dispatch core).

Sources embedded here:
  - utils/circuit_breaker.py   (CircuitBreaker.call, _on_success, _on_failure,
                                _should_attempt_reset, state transitions)
  - utils/rabbit_mq/connection.py (get_channel_with_retries, MAX_N_RETRIES)
  - utils/rabbit_mq/producer.py (publish_email_message, publish_push_message)
  - utils/redis/redis_utils.py  (set_notification, get_notification_status stub)
  - main.py                     (the POST notifications handler, the GET
                                notifications status handler)

Python wall-clock time is modelled as integer seconds.  Python exceptions
are modelled as an explicit error type carrying the text that str(e) would
render; fallible steps return Except.  Nondeterministic inputs of a single
request (downstream service call outcomes, acquired channel, broker publish
outcome, generated uuid strings, current timestamp) are passed explicitly.
-/

/-- Modelled from the spec: the notification_type enum of
models/notification.py (file absent from the source tree); the spec lists
EMAIL, PUSH and possibly further variants, of which the dispatch handler
routes only EMAIL and PUSH. -/
inductive NotificationTypeEnum where
  | EMAIL
  | PUSH
  | SMS
deriving DecidableEq, Repr

/-- Printable name of a notification type, used in response texts. -/
def NotificationTypeEnum.typeName : NotificationTypeEnum → String
  | .EMAIL => "EMAIL"
  | .PUSH => "PUSH"
  | .SMS => "SMS"

/-- Modelled from the spec: NotificationRequest of models/notification.py
(file absent from the source tree): user_id, notification_type,
template_code, priority, request_id. -/
structure NotificationRequest where
  user_id : String
  notification_type : NotificationTypeEnum
  template_code : String
  priority : Nat
  request_id : String
deriving DecidableEq, Repr

/-- A Python exception, carrying the text that str(e) renders. -/
inductive PyErr where
  | exc (msg : String)
deriving DecidableEq, Repr

/-- The text str(e) of an exception. -/
def PyErr.str : PyErr → String
  | .exc m => m

/-- The AttributeError raised when the EMAIL branch hands channel None to
publish_email_message and the producer evaluates channel.default_exchange. -/
def noneChannelError : PyErr :=
  .exc "AttributeError: NoneType object has no attribute default_exchange"

/-- An aio_pika channel; only its identity matters to the embedding. -/
structure Channel where
  id : Nat
deriving DecidableEq, Repr

/-- An AMQP exchange reference: either the nameless default exchange of a
channel, or an exchange declared under a name. -/
inductive Exchange where
  | defaultExchange
  | named (nm : String)
deriving DecidableEq, Repr

/-- The exchange declared by connection.py and named by EXCHANGE_NAME in
producer.py. -/
def EXCHANGE_NAME : String := "notifications.direct"

/-- A message as handed to the broker: which exchange it was published to,
its routing key, the aio_pika.Message priority and persistence flag, and
the tracking id embedded in its tracking_metadata. -/
structure BrokerMessage where
  exchange : Exchange
  routing_key : String
  priority : Nat
  persistent : Bool
  tracking_id : String
deriving DecidableEq, Repr

/-- The notification_status record built by the producers and stored under
the tracking id (the TrackingRecord of the spec). -/
structure TrackingRecord where
  notification_id : String
  status : String
  timestamp : String
  error : String
deriving DecidableEq, Repr

/-- Gateway-visible shared state: the idempotency markers (request ids
marked processed in Redis), the notification status store (Redis hashes
keyed by tracking id), and the list of messages the broker has received. -/
structure GatewayState where
  processed : List String
  statusStore : List (String × TrackingRecord)
  published : List BrokerMessage
deriving DecidableEq, Repr

/-- The user record returned by the user service: preference flags per
notification type (absent means allowed, the dict .get default True) and an
optional email. -/
structure UserData where
  preferences : List (NotificationTypeEnum × Bool)
  email : Option String
deriving DecidableEq, Repr

/-- Preference lookup user_info.get("preferences", dict()).get(t, True). -/
def prefAllows (u : UserData) (t : NotificationTypeEnum) : Bool :=
  match u.preferences.lookup t with
  | some b => b
  | none => true

/-- Outcomes of the effectful steps of one request: the user service call,
the template service call, the channel returned by get_channel_with_retries
(None when its retries are exhausted), the broker publish outcome, and the
current UTC timestamp rendered by the producers. -/
structure GatewayEnv where
  userService : Except PyErr UserData
  templateService : Except PyErr String
  channel : Option Channel
  publishResult : Except PyErr Unit
  now_iso : String
deriving Repr

/-- An HTTP JSONResponse: status code plus the optional body fields the
handlers emit (success, error, message, notification_id, request_id). -/
structure HttpResponse where
  status : Nat
  success : Option Bool
  error : Option String
  message : Option String
  notification_id : Option String
  request_id : Option String
deriving DecidableEq, Repr

/-! ## Circuit breaker (utils/circuit_breaker.py) -/

/-- The three circuit breaker states. -/
inductive CBState where
  | CLOSED
  | OPEN
  | HALF_OPEN
deriving DecidableEq, Repr

/-- CircuitBreaker instance state: configuration plus mutable fields. -/
structure CircuitBreaker where
  failure_threshold : Nat
  recovery_timeout : Int
  state : CBState
  failure_count : Nat
  success_count : Nat
  last_failure_time : Option Int
deriving DecidableEq, Repr

/-- CircuitBreaker.__init__: CLOSED, zero counts, no failure time. -/
def CircuitBreaker.init (thr : Nat) (rt : Int) : CircuitBreaker :=
  { failure_threshold := thr, recovery_timeout := rt, state := .CLOSED,
    failure_count := 0, success_count := 0, last_failure_time := none }

/-- CircuitBreaker._should_attempt_reset: False with no recorded failure,
else whether elapsed seconds since last_failure_time reach
recovery_timeout. -/
def CircuitBreaker.should_attempt_reset (cb : CircuitBreaker) (now : Int) : Bool :=
  match cb.last_failure_time with
  | none => false
  | some t => cb.recovery_timeout ≤ now - t

/-- CircuitBreaker._on_success: bump success_count; from HALF_OPEN close
the circuit (resetting both counts); while CLOSED reset a non-zero
failure_count. -/
def CircuitBreaker.on_success (cb : CircuitBreaker) : CircuitBreaker :=
  let cb := { cb with success_count := cb.success_count + 1 }
  match cb.state with
  | .HALF_OPEN =>
      { cb with state := .CLOSED, failure_count := 0, success_count := 0 }
  | .CLOSED =>
      if cb.failure_count > 0 then { cb with failure_count := 0 } else cb
  | .OPEN => cb

/-- CircuitBreaker._on_failure: bump failure_count and stamp
last_failure_time; from HALF_OPEN reopen; while CLOSED open once the new
count reaches failure_threshold. -/
def CircuitBreaker.on_failure (cb : CircuitBreaker) (now : Int) : CircuitBreaker :=
  let cb := { cb with failure_count := cb.failure_count + 1,
                      last_failure_time := some now }
  match cb.state with
  | .HALF_OPEN => { cb with state := .OPEN }
  | .CLOSED =>
      if cb.failure_count ≥ cb.failure_threshold then
        { cb with state := .OPEN }
      else cb
  | .OPEN => cb

/-- Outcome of the wrapped operation when it is actually run: success, a
classified failure (an expected_exception), or an exception the breaker
does not classify (re-raised without touching the counters). -/
inductive CallOutcome where
  | success
  | failure
  | unclassified
deriving DecidableEq, Repr

/-- Result of CircuitBreaker.call: either the fail-fast
CircuitBreakerOpenException (the wrapped operation is never invoked), or
the operation was invoked with the given outcome. -/
inductive CallResult where
  | circuitOpen
  | invoked (o : CallOutcome)
deriving DecidableEq, Repr

/-- CircuitBreaker.call: while OPEN, either fail fast or transition to
HALF_OPEN when the recovery window has elapsed; otherwise run the wrapped
operation and report its outcome to _on_success or _on_failure. -/
def CircuitBreaker.call (cb : CircuitBreaker) (now : Int) (outcome : CallOutcome) :
    CallResult × CircuitBreaker :=
  let exec : CircuitBreaker → CallResult × CircuitBreaker := fun cb =>
    match outcome with
    | .success => (.invoked .success, cb.on_success)
    | .failure => (.invoked .failure, cb.on_failure now)
    | .unclassified => (.invoked .unclassified, cb)
  match cb.state with
  | .OPEN =>
      if cb.should_attempt_reset now then
        exec { cb with state := .HALF_OPEN }
      else
        (.circuitOpen, cb)
  | _ => exec cb

/-- A sequence of calls whose wrapped operation fails (classified) at the
given times, each routed through CircuitBreaker.call. -/
def CircuitBreaker.runFailures (cb : CircuitBreaker) : List Int → CircuitBreaker
  | [] => cb
  | t :: ts => ((cb.call t .failure).2).runFailures ts

/-! ## Channel acquisition (utils/rabbit_mq/connection.py) -/

/-- MAX_N_RETRIES of connection.py. -/
def MAX_N_RETRIES : Nat := 7

/-- The retry loop of get_channel_with_retries: chan i is the value of the
global RABBITMQ_CHANNEL observed on attempt i (it may change while the
loop sleeps between attempts).  Returns the acquired channel (None when
the tries are exhausted, the implicit Python return) together with the
number of attempts performed. -/
def acquireLoop (chan : Nat → Option Channel) : Nat → Nat → Option Channel × Nat
  | i, 0 => (none, i)
  | i, r + 1 =>
      match chan i with
      | some c => (some c, i + 1)
      | none => acquireLoop chan (i + 1) r

/-- get_channel_with_retries: run the loop from attempt 0 with
MAX_N_RETRIES tries. -/
def get_channel_with_retries (chan : Nat → Option Channel) : Option Channel :=
  (acquireLoop chan 0 MAX_N_RETRIES).1

/-- Number of attempts get_channel_with_retries performs. -/
def get_channel_attempts (chan : Nat → Option Channel) : Nat :=
  (acquireLoop chan 0 MAX_N_RETRIES).2

/-! ## Producers (utils/rabbit_mq/producer.py) -/

/-- Publish core shared by publish_email_message and publish_push_message:
build the notification_status record, write it best-effort to the status
store (set_notification; its failure is swallowed in the source),
then publish a persistent message carrying the request priority with the
given routing key via channel.default_exchange.  A None channel raises
AttributeError when .default_exchange is evaluated; a broker failure is
logged and re-raised.  On error the state reached so far (marker and
status record written, nothing published) accompanies the exception. -/
def publish_message (env : GatewayEnv) (st : GatewayState)
    (channel : Option Channel) (routing_key : String)
    (priority_level : Nat) (tracking_id : String) :
    Except (PyErr × GatewayState) GatewayState :=
  let notification_status : TrackingRecord :=
    { notification_id := tracking_id, status := "pending",
      timestamp := env.now_iso, error := "" }
  let st1 : GatewayState :=
    { st with statusStore := (tracking_id, notification_status) :: st.statusStore }
  match channel with
  | none => .error (noneChannelError, st1)
  | some _ =>
      match env.publishResult with
      | .ok _ =>
          .ok { st1 with published := st1.published ++
            [{ exchange := .defaultExchange, routing_key := routing_key,
               priority := priority_level, persistent := true,
               tracking_id := tracking_id }] }
      | .error e => .error (e, st1)

/-- publish_email_message: routing key "email", via the default exchange. -/
def publish_email_message (env : GatewayEnv) (st : GatewayState)
    (channel : Option Channel) (priority_level : Nat) (tracking_id : String) :
    Except (PyErr × GatewayState) GatewayState :=
  publish_message env st channel "email" priority_level tracking_id

/-- publish_push_message: routing key "push", via the default exchange. -/
def publish_push_message (env : GatewayEnv) (st : GatewayState)
    (channel : Option Channel) (priority_level : Nat) (tracking_id : String) :
    Except (PyErr × GatewayState) GatewayState :=
  publish_message env st channel "push" priority_level tracking_id

/-! ## The dispatch handler (main.py, POST notifications) -/

/-- The 200 body returned on an idempotent replay. -/
def alreadyProcessedResponse (rid : String) : HttpResponse :=
  { status := 200, success := some true, error := none,
    message := some "Request already processed",
    notification_id := none, request_id := some rid }

/-- The 422 body of the catch-all handler: error "Invalid payload" and the
text str(e) of whatever exception reached it. -/
def invalidPayloadResponse (e : PyErr) : HttpResponse :=
  { status := 422, success := some false, error := some "Invalid payload",
    message := some e.str, notification_id := none, request_id := none }

/-- The 400 body when the user preference disables the type. -/
def blockedResponse (t : NotificationTypeEnum) : HttpResponse :=
  { status := 400, success := some false,
    error := some ("User has disabled " ++ t.typeName ++ " notifications"),
    message := some "Notification blocked by user preference",
    notification_id := none, request_id := none }

/-- The 500 body when the template service call fails. -/
def templateUnavailableResponse : HttpResponse :=
  { status := 500, success := some false,
    error := some "Template service unavailable",
    message := some "Failed to retrieve notification template",
    notification_id := none, request_id := none }

/-- The 503 body of the PUSH branch when no channel is available. -/
def queueUnavailableResponse : HttpResponse :=
  { status := 503, success := none,
    error := some "Message queue unavailable", message := none,
    notification_id := none, request_id := none }

/-- The 202 body of the EMAIL branch. -/
def emailAcceptedResponse (tid rid : String) : HttpResponse :=
  { status := 202, success := some true, error := none,
    message := some "Email notification accepted for processing",
    notification_id := some tid, request_id := some rid }

/-- The 202 body of the PUSH branch. -/
def pushAcceptedResponse (tid rid : String) : HttpResponse :=
  { status := 202, success := some true, error := none,
    message := some "Push notification accepted for processing",
    notification_id := some tid, request_id := some rid }

/-- The 400 body for an unsupported notification type. -/
def unsupportedTypeResponse (t : NotificationTypeEnum) : HttpResponse :=
  { status := 400, success := some false,
    error := some ("Unsupported notification type: " ++ t.typeName),
    message := some "Invalid notification type provided",
    notification_id := none, request_id := none }

/-- The preference gate of the handler: blocked only when the user service
call succeeded and the preference flag for this type is False; every
failure of the call is logged and the request proceeds. -/
def blockedByPref (env : GatewayEnv) (req : NotificationRequest) : Bool :=
  match env.userService with
  | .ok user_info => !(prefAllows user_info req.notification_type)
  | .error _ => false

/-- Routing section of the handler (main.py lines 200 to 253): dispatch on
notification_type.  The EMAIL branch hands the result of
get_channel_with_retries straight to publish_email_message with no None
check; the PUSH branch returns 503 when the channel is None, regenerates
the tracking id, then publishes.  A raising publish falls through to the
catch-all 422 of the surrounding try. -/
def routeAndPublish (env : GatewayEnv) (st1 : GatewayState)
    (req : NotificationRequest) (tid_email tid_push : String) :
    HttpResponse × GatewayState :=
  match req.notification_type with
  | .EMAIL =>
      match publish_email_message env st1 env.channel req.priority tid_email with
      | .ok st2 => (emailAcceptedResponse tid_email req.request_id, st2)
      | .error (e, st2) => (invalidPayloadResponse e, st2)
  | .PUSH =>
      match env.channel with
      | none => (queueUnavailableResponse, st1)
      | some ch =>
          match publish_push_message env st1 (some ch) req.priority tid_push with
          | .ok st2 => (pushAcceptedResponse tid_push req.request_id, st2)
          | .error (e, st2) => (invalidPayloadResponse e, st2)
  | t => (unsupportedTypeResponse t, st1)

/-- The POST notifications handler of main.py.  body is the outcome of
load_request_payload (its parse or validation exception reaches the
catch-all 422).  is_request_processed and mark_request_processed are
imported in main.py but absent from the source tree; modelled from the
spec: a Redis-backed set of request_id markers answering already-processed
and mark-as-processed.  tid_email is the uuid4 of line 198 used by the
EMAIL branch, tid_push the regenerated uuid4 of the PUSH branch. -/
def notification (env : GatewayEnv) (st : GatewayState)
    (body : Except PyErr NotificationRequest) (tid_email tid_push : String) :
    HttpResponse × GatewayState :=
  match body with
  | .error e => (invalidPayloadResponse e, st)
  | .ok req =>
      if req.request_id ∈ st.processed then
        (alreadyProcessedResponse req.request_id, st)
      else
        let st1 : GatewayState :=
          { st with processed := req.request_id :: st.processed }
        if blockedByPref env req then
          (blockedResponse req.notification_type, st1)
        else
          match env.templateService with
          | .error _ => (templateUnavailableResponse, st1)
          | .ok _ => routeAndPublish env st1 req tid_email tid_push

/-! ## The status handler (main.py GET, redis_utils.get_notification_status) -/

/-- Arity of get_notification_status as defined in redis_utils.py: the
function takes no parameters (its body is pass, returning None). -/
def get_notification_status_arity : Nat := 0

/-- A call to redis_utils.get_notification_status with a list of
positional arguments: Python raises TypeError when more arguments are
passed than the function has parameters; otherwise the body pass runs and
returns None, never consulting the status store. -/
def call_get_notification_status (_store : List (String × TrackingRecord))
    (args : List String) : Except PyErr (Option TrackingRecord) :=
  if args.length ≤ get_notification_status_arity then
    .ok none
  else
    .error (.exc "TypeError: get_notification_status takes 0 positional arguments but 1 was given")

/-- The 200 body of the GET handler when the status lookup is truthy. -/
def statusFoundResponse : HttpResponse :=
  { status := 200, success := some true, error := none,
    message := some "Notification status retrieved successfully",
    notification_id := none, request_id := none }

/-- The 404 body of the GET handler when the status lookup is falsy. -/
def statusNotFoundResponse : HttpResponse :=
  { status := 404, success := some false,
    error := some "Notification not found",
    message := some "No notification found with the provided ID",
    notification_id := none, request_id := none }

/-- The 500 body of the GET handler when the lookup raised. -/
def statusErrorResponse : HttpResponse :=
  { status := 500, success := some false,
    error := some "Internal server error",
    message := some "Failed to retrieve notification status",
    notification_id := none, request_id := none }

/-- The GET notifications status handler of main.py: call
get_notification_status with the path id as one positional argument;
respond 200 on a truthy record, 404 on a falsy one, 500 when the call
raised. -/
def get_notification (store : List (String × TrackingRecord))
    (notification_id : String) : HttpResponse :=
  match call_get_notification_status store [notification_id] with
  | .ok (some _) => statusFoundResponse
  | .ok none => statusNotFoundResponse
  | .error _ => statusErrorResponse

/-! ## Concrete fixtures for witnesses and evaluations -/

/-- The EMAIL request r1 of the spec scenario. -/
def reqEmailR1 : NotificationRequest :=
  { user_id := "u1", notification_type := .EMAIL, template_code := "welcome",
    priority := 5, request_id := "r1" }

/-- A PUSH request with its own request id. -/
def reqPushR2 : NotificationRequest :=
  { user_id := "u1", notification_type := .PUSH, template_code := "welcome",
    priority := 5, request_id := "r2" }

/-- A user with no preference overrides (every type allowed). -/
def happyUser : UserData :=
  { preferences := [], email := some "u1@example.com" }

/-- Live downstream services, a live channel and a healthy broker. -/
def happyEnv : GatewayEnv :=
  { userService := .ok happyUser, templateService := .ok "welcome template",
    channel := some { id := 1 }, publishResult := .ok (),
    now_iso := "2026-10-12T00:00:00+00:00" }

/-- The empty initial shared state. -/
def emptyState : GatewayState :=
  { processed := [], statusStore := [], published := [] }

/-- Like happyEnv, with channel acquisition exhausted (None returned). -/
def noChannelEnv : GatewayEnv :=
  { happyEnv with channel := none }

/-- The broker exception of the publish-failure scenario. -/
def brokerDownError : PyErr := .exc "Connection reset by peer"

/-- Like happyEnv, with the broker publish raising. -/
def brokerDownEnv : GatewayEnv :=
  { happyEnv with publishResult := .error brokerDownError }

/-- Like happyEnv, with the user preference lookup always throwing. -/
def prefDownEnv : GatewayEnv :=
  { happyEnv with userService := .error (.exc "user service is down") }

/-- Like happyEnv, with the template fetch always throwing. -/
def tplDownEnv : GatewayEnv :=
  { happyEnv with templateService := .error (.exc "template service is down") }

/-- A tracking record stored under the id abc. -/
def sampleRecord : TrackingRecord :=
  { notification_id := "abc", status := "pending",
    timestamp := "2026-10-12T00:00:00+00:00", error := "" }

/-- A breaker that tripped OPEN at time 10 with threshold 3 and a 60
second recovery window. -/
def openBreaker : CircuitBreaker :=
  { failure_threshold := 3, recovery_timeout := 60, state := .OPEN,
    failure_count := 3, success_count := 0, last_failure_time := some 10 }

/-! ## Theorems -/

/-- C2: claimed GET notifications by id returns 200 with the record when it
exists and 404 otherwise; in the code get_notification_status is a
zero-parameter pass stub, so the call with the id argument raises
TypeError and the handler answers 500 for every id, with a record present
in the store as much as without one. -/
theorem get_notification_always_500 :
    get_notification [("abc", sampleRecord)] "abc" = statusErrorResponse ∧
    get_notification [] "abc" = statusErrorResponse ∧
    statusErrorResponse.status = 500 := by
  refine ⟨rfl, rfl, rfl⟩

/-- C3: claimed every message is published to the direct exchange named
for notifications; evaluating the accepted EMAIL scenario shows the
message reaches the broker through the nameless default exchange (with
routing key email as claimed), not the declared notifications.direct
exchange. -/
theorem email_publish_uses_default_exchange :
    ((notification happyEnv emptyState (.ok reqEmailR1) "t1" "t2").2.published.map
      (fun m => (m.exchange, m.routing_key))) = [(Exchange.defaultExchange, "email")] ∧
    Exchange.defaultExchange ≠ Exchange.named EXCHANGE_NAME := by
  refine ⟨rfl, by decide⟩

/-- C4: claimed both EMAIL and PUSH answer 503 QueueUnavailable when no
channel is acquired; the PUSH branch does, but the EMAIL branch has no
None check, the producer raises on the None channel, and the catch-all
answers 422 Invalid payload. -/
theorem email_no_channel_yields_422_not_503 :
    (notification noChannelEnv emptyState (.ok reqEmailR1) "t1" "t2").1.status = 422 ∧
    (notification noChannelEnv emptyState (.ok reqEmailR1) "t1" "t2").1.error =
      some "Invalid payload" ∧
    (notification noChannelEnv emptyState (.ok reqPushR2) "t1" "t2").1 =
      queueUnavailableResponse ∧
    queueUnavailableResponse.status = 503 := by
  refine ⟨rfl, rfl, rfl, rfl⟩

/-- C5 counterexample: claimed a broker publish failure answers 500 with a
translated body never echoing exception text; evaluating a publish failure
shows status 422 (so not 500) with the message field equal to str(e) of
the broker exception, echoed verbatim. -/
theorem publish_failure_yields_422_echoing_text :
    (notification brokerDownEnv emptyState (.ok reqEmailR1) "t1" "t2").1.status = 422 ∧
    (notification brokerDownEnv emptyState (.ok reqEmailR1) "t1" "t2").1.status ≠ 500 ∧
    (notification brokerDownEnv emptyState (.ok reqEmailR1) "t1" "t2").1.message =
      some brokerDownError.str := by
  refine ⟨rfl, by decide, rfl⟩

/-! ## Circuit breaker lemmas and claims C6, C7 -/

/-- A call while CLOSED always invokes the wrapped operation; a classified
failure is reported to _on_failure. -/
theorem call_closed_failure (cb : CircuitBreaker) (t : Int)
    (h1 : cb.state = .CLOSED) :
    cb.call t .failure = (.invoked .failure, cb.on_failure t) := by
  simp [CircuitBreaker.call, h1]

/-- _on_failure while CLOSED and still short of the threshold: count and
stamp, stay CLOSED. -/
theorem on_failure_closed_small (cb : CircuitBreaker) (t : Int)
    (h1 : cb.state = .CLOSED)
    (h2 : cb.failure_count + 1 < cb.failure_threshold) :
    cb.on_failure t = { cb with failure_count := cb.failure_count + 1,
                                last_failure_time := some t } := by
  simp [CircuitBreaker.on_failure, h1]
  omega

/-- _on_failure while CLOSED reaching the threshold: count, stamp, open. -/
theorem on_failure_closed_reach (cb : CircuitBreaker) (t : Int)
    (h1 : cb.state = .CLOSED)
    (h2 : cb.failure_threshold ≤ cb.failure_count + 1) :
    cb.on_failure t = { cb with state := .OPEN,
                                failure_count := cb.failure_count + 1,
                                last_failure_time := some t } := by
  simp [CircuitBreaker.on_failure, h1]
  omega

/-- While CLOSED and short of the threshold, a run of classified failures
keeps the breaker CLOSED and adds their number to failure_count. -/
theorem runFailures_stays_closed (times : List Int) :
    ∀ cb : CircuitBreaker, cb.state = .CLOSED →
      cb.failure_count + times.length < cb.failure_threshold →
      (cb.runFailures times).state = .CLOSED ∧
      (cb.runFailures times).failure_count = cb.failure_count + times.length := by
  induction times with
  | nil =>
      intro cb h1 _
      exact ⟨h1, by simp [CircuitBreaker.runFailures]⟩
  | cons t ts ih =>
      intro cb h1 h2
      simp only [List.length_cons] at h2
      have hlt : cb.failure_count + 1 < cb.failure_threshold := by omega
      have hcb1 := on_failure_closed_small cb t h1 hlt
      have hstep : cb.runFailures (t :: ts) =
          (cb.on_failure t).runFailures ts := by
        simp [CircuitBreaker.runFailures, call_closed_failure cb t h1]
      rw [hstep, hcb1]
      have hres := ih { cb with failure_count := cb.failure_count + 1,
                                last_failure_time := some t } h1 (by simp; omega)
      refine ⟨hres.1, ?_⟩
      rw [hres.2]
      simp
      omega

/-- While CLOSED, a run of classified failures whose number exactly fills
the remaining budget opens the breaker, leaves failure_count at the
threshold, preserves configuration, and stamps last_failure_time with the
last failure time. -/
theorem runFailures_opens (times : List Int) :
    ∀ cb : CircuitBreaker, cb.state = .CLOSED → times ≠ [] →
      cb.failure_count + times.length = cb.failure_threshold →
      (cb.runFailures times).state = .OPEN ∧
      (cb.runFailures times).failure_count = cb.failure_threshold ∧
      (cb.runFailures times).recovery_timeout = cb.recovery_timeout ∧
      (cb.runFailures times).last_failure_time = times.getLast? := by
  induction times with
  | nil =>
      intro cb _ hne _
      exact absurd rfl hne
  | cons t ts ih =>
      intro cb h1 _ hsum
      have hstep : cb.runFailures (t :: ts) =
          (cb.on_failure t).runFailures ts := by
        simp [CircuitBreaker.runFailures, call_closed_failure cb t h1]
      cases ts with
      | nil =>
          simp only [List.length_cons, List.length_nil] at hsum
          have hge : cb.failure_threshold ≤ cb.failure_count + 1 := by omega
          rw [hstep, on_failure_closed_reach cb t h1 hge]
          simp [CircuitBreaker.runFailures]
          omega
      | cons t2 ts2 =>
          simp only [List.length_cons] at hsum
          have hlt : cb.failure_count + 1 < cb.failure_threshold := by omega
          rw [hstep, on_failure_closed_small cb t h1 hlt]
          have hres := ih { cb with failure_count := cb.failure_count + 1,
                                    last_failure_time := some t }
            h1 (by simp) (by simp; omega)
          refine ⟨hres.1, ?_, ?_, ?_⟩
          · rw [hres.2.1]
          · rw [hres.2.2.1]
          · rw [hres.2.2.2, List.getLast?_cons_cons]

/-- A call while OPEN before the recovery window has elapsed fails fast
with the CircuitOpen error, never invoking the wrapped operation and
leaving the breaker untouched. -/
theorem open_call_fails_fast (cb : CircuitBreaker) (t now : Int) (o : CallOutcome)
    (hst : cb.state = .OPEN) (hlft : cb.last_failure_time = some t)
    (hnow : now - t < cb.recovery_timeout) :
    cb.call now o = (.circuitOpen, cb) := by
  have hsar : cb.should_attempt_reset now = false := by
    simp [CircuitBreaker.should_attempt_reset, hlft]
    omega
  simp [CircuitBreaker.call, hst, hsar]

/-- C6: starting from a fresh CLOSED breaker, every run of fewer than
failure_threshold consecutive classified failures leaves it CLOSED, a run
of exactly failure_threshold opens it with failure_count at the
threshold, and a further call made before recovery_timeout has elapsed
since the last failure time fails fast with the CircuitOpen error,
returning the breaker unchanged and never invoking the wrapped
operation. -/
theorem breaker_opens_after_threshold (thr : Nat) (rt : Int)
    (times : List Int) (t_last now : Int)
    (hthr : 1 ≤ thr) (hlen : times.length = thr)
    (hlast : times.getLast? = some t_last)
    (hnow : now - t_last < rt) :
    (∀ k, k < thr →
      ((CircuitBreaker.init thr rt).runFailures (times.take k)).state = .CLOSED) ∧
    ((CircuitBreaker.init thr rt).runFailures times).state = .OPEN ∧
    ((CircuitBreaker.init thr rt).runFailures times).failure_count = thr ∧
    ∀ o, ((CircuitBreaker.init thr rt).runFailures times).call now o =
      (.circuitOpen, (CircuitBreaker.init thr rt).runFailures times) := by
  have hne : times ≠ [] := by
    intro h
    rw [h] at hlen
    simp at hlen
    omega
  have hmain := runFailures_opens times (CircuitBreaker.init thr rt) rfl hne
    (by simp [CircuitBreaker.init, hlen])
  obtain ⟨hop, hfc, hrt, hlft⟩ := hmain
  refine ⟨?_, hop, by simpa [CircuitBreaker.init] using hfc, ?_⟩
  · intro k hk
    have hres := runFailures_stays_closed (times.take k) (CircuitBreaker.init thr rt)
      rfl (by simp [CircuitBreaker.init, List.length_take, hlen]; omega)
    exact hres.1
  · intro o
    refine open_call_fails_fast _ t_last now o hop ?_ ?_
    · rw [hlft, hlast]
    · rw [hrt]
      simpa [CircuitBreaker.init] using hnow

/-- C6 witness: threshold 3, recovery window 60, failures at times 0, 1
and 2, probed again at time 50. -/
theorem breaker_opens_after_threshold_witness :
    (∀ k, k < 3 →
      ((CircuitBreaker.init 3 60).runFailures ([0, 1, 2].take k)).state = .CLOSED) ∧
    ((CircuitBreaker.init 3 60).runFailures [0, 1, 2]).state = .OPEN ∧
    ((CircuitBreaker.init 3 60).runFailures [0, 1, 2]).failure_count = 3 ∧
    ∀ o, ((CircuitBreaker.init 3 60).runFailures [0, 1, 2]).call 50 o =
      (.circuitOpen, (CircuitBreaker.init 3 60).runFailures [0, 1, 2]) :=
  breaker_opens_after_threshold 3 60 [0, 1, 2] 2 50 (by decide) (by decide)
    (by decide) (by decide)

/-- C7: while OPEN with at least recovery_timeout elapsed since the last
failure, the next call is attempted (the breaker passes through
HALF_OPEN); a success closes the breaker with failure_count 0, a failure
returns it to OPEN with last_failure_time restamped to the new failure
time, restarting the recovery window. -/
theorem breaker_recovery (cb : CircuitBreaker) (t now : Int)
    (hst : cb.state = .OPEN) (hlft : cb.last_failure_time = some t)
    (hel : cb.recovery_timeout ≤ now - t) :
    (cb.call now .success).1 = .invoked .success ∧
    (cb.call now .success).2.state = .CLOSED ∧
    (cb.call now .success).2.failure_count = 0 ∧
    (cb.call now .failure).1 = .invoked .failure ∧
    (cb.call now .failure).2.state = .OPEN ∧
    (cb.call now .failure).2.last_failure_time = some now := by
  have hsar : cb.should_attempt_reset now = true := by
    simp [CircuitBreaker.should_attempt_reset, hlft]
    omega
  refine ⟨?_, ?_, ?_, ?_, ?_, ?_⟩ <;>
    simp [CircuitBreaker.call, hst, hsar, CircuitBreaker.on_success,
      CircuitBreaker.on_failure]

/-- C7 witness: the openBreaker fixture (tripped at time 10, window 60)
probed at time 100. -/
theorem breaker_recovery_witness :
    (openBreaker.call 100 .success).1 = .invoked .success ∧
    (openBreaker.call 100 .success).2.state = .CLOSED ∧
    (openBreaker.call 100 .success).2.failure_count = 0 ∧
    (openBreaker.call 100 .failure).1 = .invoked .failure ∧
    (openBreaker.call 100 .failure).2.state = .OPEN ∧
    (openBreaker.call 100 .failure).2.last_failure_time = some 100 :=
  breaker_recovery openBreaker 10 100 rfl rfl (by decide)

/-! ## Channel acquisition lemmas and claim C8 -/

/-- Case analysis of the retry loop started at attempt i with r tries
left: either every probed slot holds no channel and the loop exhausts all
r tries returning None, or the first attempt observing a live channel
returns it at once. -/
theorem acquireLoop_cases (chan : Nat → Option Channel) :
    ∀ (r i : Nat),
    ((∀ k, k < r → chan (i + k) = none) ∧ acquireLoop chan i r = (none, i + r)) ∨
    (∃ j c, j < r ∧ (∀ k, k < j → chan (i + k) = none) ∧ chan (i + j) = some c ∧
      acquireLoop chan i r = (some c, i + j + 1)) := by
  intro r
  induction r with
  | zero =>
      intro i
      left
      exact ⟨fun k hk => absurd hk (Nat.not_lt_zero k), by simp [acquireLoop]⟩
  | succ r ih =>
      intro i
      cases hc : chan i with
      | some c =>
          right
          refine ⟨0, c, Nat.succ_pos r, fun k hk => absurd hk (Nat.not_lt_zero k),
            by simpa using hc, by simp [acquireLoop, hc]⟩
      | none =>
          have hunfold : acquireLoop chan i (r + 1) = acquireLoop chan (i + 1) r := by
            simp [acquireLoop, hc]
          rcases ih (i + 1) with ⟨hall, heq⟩ | ⟨j, c, hj, hpre, hsome, heq⟩
          · left
            refine ⟨?_, ?_⟩
            · intro k hk
              cases k with
              | zero => simpa using hc
              | succ k =>
                  have h := hall k (by omega)
                  have harith : i + (k + 1) = i + 1 + k := by omega
                  rw [harith]
                  exact h
            · have harith : i + 1 + r = i + (r + 1) := by omega
              rw [hunfold, heq, harith]
          · right
            refine ⟨j + 1, c, by omega, ?_, ?_, ?_⟩
            · intro k hk
              cases k with
              | zero => simpa using hc
              | succ k =>
                  have h := hpre k (by omega)
                  have harith : i + (k + 1) = i + 1 + k := by omega
                  rw [harith]
                  exact h
            · have harith : i + (j + 1) = i + 1 + j := by omega
              rw [harith]
              exact hsome
            · have harith : i + 1 + j + 1 = i + (j + 1) + 1 := by omega
              rw [hunfold, heq, harith]

/-- C8: get_channel_with_retries terminates on every channel history;
either no attempt observes a live channel, and after exactly
MAX_N_RETRIES (7) attempts the None value is returned (the no-channel
result, not an exception), or a live channel is observed on some attempt,
and it is returned immediately after that attempt. -/
theorem channel_retry_bound (chan : Nat → Option Channel) :
    ((∀ i, i < MAX_N_RETRIES → chan i = none) ∧
      get_channel_with_retries chan = none ∧
      get_channel_attempts chan = MAX_N_RETRIES) ∨
    (∃ j c, j < MAX_N_RETRIES ∧ (∀ i, i < j → chan i = none) ∧ chan j = some c ∧
      get_channel_with_retries chan = some c ∧
      get_channel_attempts chan = j + 1) := by
  rcases acquireLoop_cases chan MAX_N_RETRIES 0 with
    ⟨hall, heq⟩ | ⟨j, c, hj, hpre, hsome, heq⟩
  · left
    refine ⟨fun i hi => by simpa using hall i hi, ?_, ?_⟩
    · simp [get_channel_with_retries, heq]
    · simp [get_channel_attempts, heq]
  · right
    exact ⟨j, c, hj, fun i hi => by simpa using hpre i hi, by simpa using hsome,
      by simp [get_channel_with_retries, heq], by simp [get_channel_attempts, heq]⟩

/-! ## Dispatch handler lemmas and claims C1, C5, C9, C10 -/

/-- A request whose request_id is already marked short-circuits to the 200
already-processed response and leaves the state untouched. -/
theorem notification_dup_short_circuit (env : GatewayEnv) (st : GatewayState)
    (req : NotificationRequest) (tE tP : String)
    (hdup : req.request_id ∈ st.processed) :
    notification env st (.ok req) tE tP =
      (alreadyProcessedResponse req.request_id, st) := by
  simp [notification, hdup]

/-- A request answered 202 took the full path: its request_id got marked
and exactly one message was appended to the broker. -/
theorem notification_accepted_marks_and_publishes (env : GatewayEnv)
    (st : GatewayState) (req : NotificationRequest) (tE tP : String)
    (h202 : (notification env st (.ok req) tE tP).1.status = 202) :
    (notification env st (.ok req) tE tP).2.processed =
      req.request_id :: st.processed ∧
    ∃ m, (notification env st (.ok req) tE tP).2.published =
      st.published ++ [m] := by
  by_cases hdup : req.request_id ∈ st.processed
  · rw [notification_dup_short_circuit env st req tE tP hdup] at h202
    simp [alreadyProcessedResponse] at h202
  · by_cases hblk : blockedByPref env req = true
    · simp [notification, hdup, hblk, blockedResponse] at h202
    · cases htpl : env.templateService with
      | error eT =>
          simp [notification, hdup, hblk, htpl, templateUnavailableResponse] at h202
      | ok tpl =>
          cases hty : req.notification_type with
          | EMAIL =>
              cases hch : env.channel with
              | none =>
                  simp [notification, routeAndPublish, publish_email_message,
                    publish_message, hdup, hblk, htpl, hty, hch,
                    invalidPayloadResponse] at h202
              | some ch =>
                  cases hpub : env.publishResult with
                  | error pe =>
                      simp [notification, routeAndPublish, publish_email_message,
                        publish_message, hdup, hblk, htpl, hty, hch, hpub,
                        invalidPayloadResponse] at h202
                  | ok u =>
                      constructor
                      · simp [notification, routeAndPublish, publish_email_message,
                          publish_message, hdup, hblk, htpl, hty, hch, hpub]
                      · exact ⟨{ exchange := .defaultExchange,
                                   routing_key := "email",
                                   priority := req.priority, persistent := true,
                                   tracking_id := tE },
                          by simp [notification, routeAndPublish,
                            publish_email_message, publish_message, hdup, hblk,
                            htpl, hty, hch, hpub]⟩
          | PUSH =>
              cases hch : env.channel with
              | none =>
                  simp [notification, routeAndPublish, hdup, hblk, htpl, hty, hch,
                    queueUnavailableResponse] at h202
              | some ch =>
                  cases hpub : env.publishResult with
                  | error pe =>
                      simp [notification, routeAndPublish, publish_push_message,
                        publish_message, hdup, hblk, htpl, hty, hch, hpub,
                        invalidPayloadResponse] at h202
                  | ok u =>
                      constructor
                      · simp [notification, routeAndPublish, publish_push_message,
                          publish_message, hdup, hblk, htpl, hty, hch, hpub]
                      · exact ⟨{ exchange := .defaultExchange,
                                   routing_key := "push",
                                   priority := req.priority, persistent := true,
                                   tracking_id := tP },
                          by simp [notification, routeAndPublish,
                            publish_push_message, publish_message, hdup, hblk,
                            htpl, hty, hch, hpub]⟩
          | SMS =>
              simp [notification, routeAndPublish, hdup, hblk, htpl, hty,
                unsupportedTypeResponse] at h202

/-- C1: once an accepted (202) request has been processed, replaying the
same request leaves the broker untouched: the first call published
exactly one message, and the second call answers 200 with success true,
the message Request already processed and the original request_id,
changing nothing. -/
theorem idempotent_replay (env env2 : GatewayEnv) (st : GatewayState)
    (req : NotificationRequest) (tE tP tE2 tP2 : String)
    (h202 : (notification env st (.ok req) tE tP).1.status = 202) :
    (∃ m, (notification env st (.ok req) tE tP).2.published =
      st.published ++ [m]) ∧
    notification env2 (notification env st (.ok req) tE tP).2 (.ok req) tE2 tP2 =
      ({ status := 200, success := some true, error := none,
         message := some "Request already processed",
         notification_id := none, request_id := some req.request_id },
       (notification env st (.ok req) tE tP).2) := by
  obtain ⟨hproc, hm⟩ := notification_accepted_marks_and_publishes env st req tE tP h202
  refine ⟨hm, ?_⟩
  have hmem : req.request_id ∈ (notification env st (.ok req) tE tP).2.processed := by
    rw [hproc]
    exact List.mem_cons_self _ _
  rw [notification_dup_short_circuit env2 _ req tE2 tP2 hmem]
  rfl

/-- C1 witness: the spec scenario request r1 against live services, sent
twice. -/
theorem idempotent_replay_witness :
    (notification happyEnv emptyState (.ok reqEmailR1) "t1" "t2").1.status = 202 ∧
    ((∃ m, (notification happyEnv emptyState (.ok reqEmailR1) "t1" "t2").2.published =
        emptyState.published ++ [m]) ∧
      notification happyEnv
          (notification happyEnv emptyState (.ok reqEmailR1) "t1" "t2").2
          (.ok reqEmailR1) "t3" "t4" =
        ({ status := 200, success := some true, error := none,
           message := some "Request already processed",
           notification_id := none, request_id := some reqEmailR1.request_id },
         (notification happyEnv emptyState (.ok reqEmailR1) "t1" "t2").2)) :=
  ⟨by decide,
    idempotent_replay happyEnv happyEnv emptyState reqEmailR1 "t1" "t2" "t3" "t4"
      (by decide)⟩

/-- C5 amended: when the broker publish raises, the catch-all of the
handler answers 422 with error Invalid payload and a message field equal
to str(e) of the raised exception (the internal exception text is echoed
verbatim), and nothing is published. -/
theorem publish_failure_caught_as_422 (env : GatewayEnv) (st : GatewayState)
    (req : NotificationRequest) (tE tP : String) (e : PyErr) (ch : Channel)
    (tpl : String)
    (hdup : req.request_id ∉ st.processed)
    (hblk : blockedByPref env req = false)
    (htpl : env.templateService = .ok tpl)
    (hty : req.notification_type = .EMAIL ∨ req.notification_type = .PUSH)
    (hch : env.channel = some ch)
    (hpub : env.publishResult = .error e) :
    (notification env st (.ok req) tE tP).1.status = 422 ∧
    (notification env st (.ok req) tE tP).1.error = some "Invalid payload" ∧
    (notification env st (.ok req) tE tP).1.message = some e.str ∧
    (notification env st (.ok req) tE tP).2.published = st.published := by
  rcases hty with hty | hty <;>
    simp [notification, routeAndPublish, publish_email_message,
      publish_push_message, publish_message, hdup, hblk, htpl, hty, hch, hpub,
      invalidPayloadResponse]

/-- C5 amended witness: the broker-down scenario on the EMAIL request. -/
theorem publish_failure_caught_as_422_witness :
    (notification brokerDownEnv emptyState (.ok reqEmailR1) "t1" "t2").1.status = 422 ∧
    (notification brokerDownEnv emptyState (.ok reqEmailR1) "t1" "t2").1.error =
      some "Invalid payload" ∧
    (notification brokerDownEnv emptyState (.ok reqEmailR1) "t1" "t2").1.message =
      some brokerDownError.str ∧
    (notification brokerDownEnv emptyState (.ok reqEmailR1) "t1" "t2").2.published =
      emptyState.published :=
  publish_failure_caught_as_422 brokerDownEnv emptyState reqEmailR1 "t1" "t2"
    brokerDownError { id := 1 } "welcome template" (by decide) (by decide) rfl
    (Or.inl rfl) rfl rfl

/-- C9: a failing user-preference lookup never blocks delivery: with the
user service throwing and the template, channel and broker live, a valid
EMAIL request is accepted 202; a failing template fetch aborts: the
response is the 500 template-unavailable body and nothing is published. -/
theorem graceful_degradation (env1 env2 : GatewayEnv) (st : GatewayState)
    (req : NotificationRequest) (tE tP : String) (eU eT : PyErr) (tpl : String)
    (ch : Channel)
    (hdup : req.request_id ∉ st.processed)
    (hty : req.notification_type = .EMAIL)
    (h1U : env1.userService = .error eU)
    (h1T : env1.templateService = .ok tpl)
    (h1C : env1.channel = some ch)
    (h1P : env1.publishResult = .ok ())
    (h2B : blockedByPref env2 req = false)
    (h2T : env2.templateService = .error eT) :
    (notification env1 st (.ok req) tE tP).1.status = 202 ∧
    (notification env2 st (.ok req) tE tP).1 = templateUnavailableResponse ∧
    templateUnavailableResponse.status = 500 ∧
    (notification env2 st (.ok req) tE tP).2.published = st.published := by
  have h1B : blockedByPref env1 req = false := by simp [blockedByPref, h1U]
  refine ⟨?_, ?_, rfl, ?_⟩
  · simp [notification, routeAndPublish, publish_email_message, publish_message,
      hdup, h1B, h1T, hty, h1C, h1P, emailAcceptedResponse]
  · simp [notification, hdup, h2B, h2T]
  · simp [notification, hdup, h2B, h2T]

/-- C9 witness: request r1 with the user service down (202 expected), and
with the template service down (500 expected, no publish). -/
theorem graceful_degradation_witness :
    (notification prefDownEnv emptyState (.ok reqEmailR1) "t1" "t2").1.status = 202 ∧
    (notification tplDownEnv emptyState (.ok reqEmailR1) "t1" "t2").1 =
      templateUnavailableResponse ∧
    templateUnavailableResponse.status = 500 ∧
    (notification tplDownEnv emptyState (.ok reqEmailR1) "t1" "t2").2.published =
      emptyState.published :=
  graceful_degradation prefDownEnv tplDownEnv emptyState reqEmailR1 "t1" "t2"
    (.exc "user service is down") (.exc "template service is down")
    "welcome template" { id := 1 } (by decide) rfl rfl rfl rfl rfl (by decide) rfl

/-- C10: whatever the environment and request, the handler either
publishes nothing or appends exactly one message to the broker, and that
message carries the priority declared in the request, unchanged. -/
theorem priority_passthrough (env : GatewayEnv) (st : GatewayState)
    (req : NotificationRequest) (tE tP : String) :
    (notification env st (.ok req) tE tP).2.published = st.published ∨
    ∃ m, (notification env st (.ok req) tE tP).2.published = st.published ++ [m] ∧
      m.priority = req.priority := by
  by_cases hdup : req.request_id ∈ st.processed
  · left
    simp [notification, hdup]
  · by_cases hblk : blockedByPref env req = true
    · left
      simp [notification, hdup, hblk]
    · cases htpl : env.templateService with
      | error eT =>
          left
          simp [notification, hdup, hblk, htpl]
      | ok tpl =>
          cases hty : req.notification_type with
          | EMAIL =>
              cases hch : env.channel with
              | none =>
                  left
                  simp [notification, routeAndPublish, publish_email_message,
                    publish_message, hdup, hblk, htpl, hty, hch]
              | some ch =>
                  cases hpub : env.publishResult with
                  | error pe =>
                      left
                      simp [notification, routeAndPublish, publish_email_message,
                        publish_message, hdup, hblk, htpl, hty, hch, hpub]
                  | ok u =>
                      right
                      refine ⟨{ exchange := .defaultExchange,
                                  routing_key := "email",
                                  priority := req.priority, persistent := true,
                                  tracking_id := tE }, ?_, rfl⟩
                      simp [notification, routeAndPublish, publish_email_message,
                        publish_message, hdup, hblk, htpl, hty, hch, hpub]
          | PUSH =>
              cases hch : env.channel with
              | none =>
                  left
                  simp [notification, routeAndPublish, hdup, hblk, htpl, hty, hch]
              | some ch =>
                  cases hpub : env.publishResult with
                  | error pe =>
                      left
                      simp [notification, routeAndPublish, publish_push_message,
                        publish_message, hdup, hblk, htpl, hty, hch, hpub]
                  | ok u =>
                      right
                      refine ⟨{ exchange := .defaultExchange,
                                  routing_key := "push",
                                  priority := req.priority, persistent := true,
                                  tracking_id := tP }, ?_, rfl⟩
                      simp [notification, routeAndPublish, publish_push_message,
                        publish_message, hdup, hblk, htpl, hty, hch, hpub]
          | SMS =>
              left
              simp [notification, routeAndPublish, hdup, hblk, htpl, hty]
